import Mathlib

/-!
Verification of the optimistic-update core of the
`tanstack-query-optimistic-updates` repository.

The repository's core is a client-side optimistic mutation pattern built on
TanStack Query, duplicated across two near-identical components:

* `AddProductOptimistic` (src/components/products/AddProductOptimistic.tsx)
* `OptimisticUpdateDemo` (second component in
  src/components/products/ProductList.tsx)

We shallowly embed the data model (`ProductResponse`, `ProductsQueryData`,
`NewProduct`, the mutation context), the query-client cache for the single
key `['products']` that the code uses, and the mutation lifecycle
(`handleSubmit` validation, `onMutate` optimistic write, `mutationFn`,
`onError` rollback, `onSettled` invalidation), following TanStack Query's
documented callback ordering: `onMutate` runs and is awaited before
`mutationFn` is invoked; on failure `onError` runs, and `onSettled` runs
after either outcome.

External effects are modelled as explicit inputs:

* the result of the `fetch` to `https://dummyjson.com/products/add` is a
  `FetchOutcome` parameter (resolved with an HTTP ok flag and parsed JSON
  body, or rejected with an error message);
* `Date.now()` is a `Nat` parameter `now` (milliseconds);
* `parseFloat` is a `String → Option ℚ` parameter (`none` models `NaN`);
  JS numbers for prices are modelled as rationals.

Each lifecycle step also emits a list of `Ev` events so that ordering and
"runs exactly once" properties can be stated about the execution trace.
-/

namespace TanstackOptimistic

/-- JS numbers used for prices are modelled as rationals. -/
abbrev JSNum := ℚ

/-- Whitespace characters removed by JS `String.prototype.trim` (the
common ASCII ones suffice for this model). -/
def jsWhitespace (ch : Char) : Bool :=
  ch == ' ' || ch == '\t' || ch == '\n' || ch == '\r' || ch == '\x0b' ||
    ch == '\x0c'

/-- Executable model of JS `String.prototype.trim`: drop leading and
trailing whitespace. -/
def jsTrim (s : String) : String :=
  ⟨((s.data.dropWhile jsWhitespace).reverse.dropWhile jsWhitespace).reverse⟩

/-- `ProductResponse` from src/App.tsx (productTypes):
`{ id: number, title: string, price: number, thumbnail?: string,
   description?: string, images?: string[] }`. -/
structure ProductResponse where
  id : Nat
  title : String
  price : JSNum
  thumbnail : Option String
  description : Option String
  images : Option (List String)
  deriving DecidableEq, Repr

/-- `ProductsQueryData` from src/App.tsx (productTypes):
`{ products: ProductResponse[], total: number, skip: number, limit: number }`. -/
structure ProductsQueryData where
  products : List ProductResponse
  total : Nat
  skip : Nat
  limit : Nat
  deriving DecidableEq, Repr

/-- `NewProduct` from src/App.tsx (productTypes):
`{ title: string, price: number }`. -/
structure NewProduct where
  title : String
  price : JSNum
  deriving DecidableEq, Repr

/-- The query-client cache state restricted to the single key `['products']`
that the components use, plus the stale/refetch bookkeeping that
`cancelQueries` and `invalidateQueries` manipulate. -/
structure QueryCache where
  /-- The cache entry for the key `['products']`; `none` = never populated. -/
  productsData : Option ProductsQueryData
  /-- Whether a background refetch for `['products']` is in flight. -/
  pendingFetch : Bool
  /-- Whether the `['products']` entry is marked stale. -/
  stale : Bool
  /-- Whether a background refetch has been triggered (scheduled). -/
  refetchScheduled : Bool
  deriving DecidableEq, Repr

/-- Outcome of the external `fetch('https://dummyjson.com/products/add', …)`
call: either the promise resolves with an HTTP `ok` flag and a parsed JSON
body, or it rejects (network error / JSON parse failure) with a message. -/
inductive FetchOutcome where
  | resolved (ok : Bool) (body : ProductResponse)
  | rejected (msg : String)
  deriving DecidableEq, Repr

/-- Result of a `mutationFn` invocation as observed by the mutation
controller: the returned `ProductResponse` on success, or the thrown error
message on failure. -/
inductive MutationResult where
  | success (r : ProductResponse)
  | failure (msg : String)
  deriving DecidableEq, Repr

/-- Events emitted by the lifecycle, used to state ordering properties. -/
inductive Ev where
  /-- `queryClient.cancelQueries({ queryKey: ['products'] })` completed. -/
  | cancelQ
  /-- `queryClient.getQueryData(['products'])` snapshot taken. -/
  | snapshot
  /-- The speculative `setQueryData` call of `onMutate` was performed. -/
  | specWrite
  /-- The remote create call (`mutationFn`'s fetch) was issued. -/
  | remoteCall
  /-- `onError` performed its rollback `setQueryData` write. -/
  | rollbackWrite
  /-- `queryClient.invalidateQueries({ queryKey: ['products'] })` ran
  (inside `onSettled`). -/
  | invalidate
  deriving DecidableEq, Repr, BEq

/-- `queryClient.getQueryData<ProductsQueryData>(['products'])`. -/
def getQueryData (c : QueryCache) : Option ProductsQueryData :=
  c.productsData

/-- `queryClient.cancelQueries({ queryKey: ['products'] })`: aborts any
in-flight background refetch for the key; does not touch the data. -/
def cancelQueries (c : QueryCache) : QueryCache :=
  { c with pendingFetch := false }

/-- `queryClient.setQueryData(['products'], updater)` with a functional
updater: per TanStack Query semantics, if the updater returns `undefined`
(here `none`) the cache is left untouched; otherwise the entry is replaced
by the returned value. -/
def setQueryDataFn (c : QueryCache)
    (updater : Option ProductsQueryData → Option ProductsQueryData) :
    QueryCache :=
  match updater c.productsData with
  | none => c
  | some v => { c with productsData := some v }

/-- `queryClient.setQueryData(['products'], value)` with a direct value:
replaces the entry unconditionally. -/
def setQueryDataVal (c : QueryCache) (v : ProductsQueryData) : QueryCache :=
  { c with productsData := some v }

/-- `queryClient.invalidateQueries({ queryKey: ['products'] })`: marks the
entry stale and triggers a background refetch. -/
def invalidateQueries (c : QueryCache) : QueryCache :=
  { c with stale := true, refetchScheduled := true, pendingFetch := true }

namespace AddProductOptimistic

/-- The mutation context returned by `onMutate` in
AddProductOptimistic.tsx lines 109-112:
`{ previousProducts, optimisticProductTitle: newProduct.title }`. -/
structure MutationContext where
  previousProducts : Option ProductsQueryData
  optimisticProductTitle : String
  deriving DecidableEq, Repr

/-- The optimistic placeholder product built in AddProductOptimistic.tsx
lines 75-85: `id` is the `Date.now()` timestamp, title and price come
from the user input, and media fields are derived placeholders. -/
def optimisticProduct (newProduct : NewProduct) (timestamp : Nat) :
    ProductResponse :=
  { id := timestamp
    title := newProduct.title
    price := newProduct.price
    thumbnail :=
      some ("https://picsum.photos/150/150?random=" ++ toString timestamp)
    description := some "Recently added product"
    images :=
      some [("https://picsum.photos/300/300?random=" ++ toString timestamp)] }

/-- The `setQueryData` updater of `onMutate` (AddProductOptimistic.tsx
lines 68-104): if there is no existing data, return it unchanged
(`return oldData`, i.e. `undefined`); otherwise prepend the optimistic
product and increment `total`. -/
def onMutateUpdater (newProduct : NewProduct) (now : Nat)
    (oldData : Option ProductsQueryData) : Option ProductsQueryData :=
  match oldData with
  | none => none
  | some d =>
      some { d with
        products := optimisticProduct newProduct now :: d.products
        total := d.total + 1 }

/-- `onMutate` (AddProductOptimistic.tsx lines 42-113): await
`cancelQueries`, snapshot the previous value, apply the speculative
`setQueryData`, and return the rollback context. `now` is the
`Date.now()` reading inside the updater. -/
def onMutate (newProduct : NewProduct) (now : Nat) (c : QueryCache) :
    QueryCache × MutationContext × List Ev :=
  let c1 := cancelQueries c
  let previousProducts := getQueryData c1
  let c2 := setQueryDataFn c1 (onMutateUpdater newProduct now)
  (c2, ⟨previousProducts, newProduct.title⟩, [.cancelQ, .snapshot, .specWrite])

/-- `mutationFn` (AddProductOptimistic.tsx lines 20-36): POST to the
remote API; if the response is not `ok`, throw `'Failed to add product'`;
otherwise return the parsed body. A rejected fetch propagates as the
thrown error. -/
def mutationFn (outcome : FetchOutcome) : MutationResult :=
  match outcome with
  | .resolved ok body =>
      if ok then .success body else .failure "Failed to add product"
  | .rejected msg => .failure msg

/-- `onError` (AddProductOptimistic.tsx lines 117-132): if the context
holds a previous snapshot, restore it wholesale with a direct-value
`setQueryData`; otherwise do nothing. -/
def onError (ctx : MutationContext) (c : QueryCache) :
    QueryCache × List Ev :=
  match ctx.previousProducts with
  | some p => (setQueryDataVal c p, [.rollbackWrite])
  | none => (c, [])

/-- `onSettled` (AddProductOptimistic.tsx lines 157-173): always
invalidate the `['products']` query, in both the success and the error
outcome. -/
def onSettled (c : QueryCache) : QueryCache × List Ev :=
  (invalidateQueries c, [.invalidate])

/-- `addProductMutation.mutate(newProduct)` per TanStack Query's lifecycle:
`onMutate` is awaited, then `mutationFn` runs; on success `onSuccess`
(form reset only, no cache write) then `onSettled`; on failure `onError`
then `onSettled`. Returns the final cache, the terminal result reported
to the caller, and the event trace. -/
def mutate (outcome : FetchOutcome) (now : Nat) (newProduct : NewProduct)
    (c : QueryCache) : QueryCache × MutationResult × List Ev :=
  let (c1, ctx, ev1) := onMutate newProduct now c
  match mutationFn outcome with
  | .success r =>
      let (c2, ev3) := onSettled c1
      (c2, .success r, ev1 ++ [.remoteCall] ++ ev3)
  | .failure m =>
      let (c2, ev2) := onError ctx c1
      let (c3, ev3) := onSettled c2
      (c3, .failure m, ev1 ++ [.remoteCall] ++ ev2 ++ ev3)

/-- `handleSubmit` (AddProductOptimistic.tsx lines 177-198): reject if
title or price trims empty, reject if `parseFloat(price)` is `NaN` or
`<= 0`; otherwise the mutation is triggered with the trimmed title and
parsed price. `parse` models `parseFloat` (`none` = `NaN`). Returns the
mutation variables, or `none` when no mutation is triggered. -/
def handleSubmit (parse : String → Option JSNum)
    (title price : String) : Option NewProduct :=
  if jsTrim title = "" ∨ jsTrim price = "" then none
  else
    match parse price with
    | none => none
    | some priceNumber =>
        if priceNumber ≤ 0 then none
        else some ⟨jsTrim title, priceNumber⟩

/-- A full `submit` invocation: validation, then (if it passes) the
mutation lifecycle. The second component is `none` when validation
rejected (no remote call, no cache effect). -/
def submit (parse : String → Option JSNum) (outcome : FetchOutcome)
    (now : Nat) (title price : String) (c : QueryCache) :
    QueryCache × Option MutationResult × List Ev :=
  match handleSubmit parse title price with
  | none => (c, none, [])
  | some np =>
      let (c', r, evs) := mutate outcome now np c
      (c', some r, evs)

/-- The cache state immediately upon return from phase 2 (the optimistic
update), before the remote call resolves. -/
def stateAfterPhase2 (newProduct : NewProduct) (now : Nat)
    (c : QueryCache) : QueryCache :=
  (onMutate newProduct now c).1

end AddProductOptimistic

namespace OptimisticUpdateDemo

/-- The demo-mode selector of `OptimisticUpdateDemo`
(ProductList.tsx line 55): `'normal' | 'slow' | 'error'`. -/
inductive DemoMode where
  | normal
  | slow
  | error
  deriving DecidableEq, Repr

/-- The mutation context returned by the demo's `onMutate`
(ProductList.tsx line 163): `{ previousProducts, timestamp }`. -/
structure MutationContext where
  previousProducts : Option ProductsQueryData
  timestamp : Nat
  deriving DecidableEq, Repr

/-- `mutationFn` of `OptimisticUpdateDemo` (ProductList.tsx lines 63-105):
in `normal` and `slow` modes the fetch response's body is returned
directly — there is no `response.ok` check, so a resolved response is a
success whatever its HTTP status; a rejected fetch (or JSON parse
failure) propagates as the thrown error. In `error` mode the function
always throws `'Server temporarily unavailable (demo error)'` without
issuing a fetch. -/
def mutationFn (mode : DemoMode) (outcome : FetchOutcome) :
    MutationResult :=
  match mode with
  | .normal | .slow =>
      match outcome with
      | .resolved _ body => .success body
      | .rejected msg => .failure msg
  | .error => .failure "Server temporarily unavailable (demo error)"

/-- The optimistic placeholder product built in the demo's `onMutate`
(ProductList.tsx lines 131-142). -/
def optimisticProduct (newProduct : NewProduct) (timestamp : Nat) :
    ProductResponse :=
  { id := timestamp
    title := newProduct.title
    price := newProduct.price
    thumbnail :=
      some ("https://picsum.photos/150/150?random=" ++ toString timestamp)
    description :=
      some (newProduct.title ++ " - Added via optimistic update")
    images :=
      some [("https://picsum.photos/300/300?random=" ++ toString timestamp)] }

/-- The `setQueryData` updater of the demo's `onMutate` (ProductList.tsx
lines 127-156): identical shape to the `AddProductOptimistic` updater. -/
def onMutateUpdater (newProduct : NewProduct) (now : Nat)
    (oldData : Option ProductsQueryData) : Option ProductsQueryData :=
  match oldData with
  | none => none
  | some d =>
      some { d with
        products := optimisticProduct newProduct now :: d.products
        total := d.total + 1 }

/-- The demo's `onMutate` (ProductList.tsx lines 108-164): the timestamp
is read once at the top (`const timestamp = Date.now()`), then
`cancelQueries` is awaited, the snapshot taken, and the speculative
write applied. -/
def onMutate (newProduct : NewProduct) (now : Nat) (c : QueryCache) :
    QueryCache × MutationContext × List Ev :=
  let c1 := cancelQueries c
  let previousProducts := getQueryData c1
  let c2 := setQueryDataFn c1 (onMutateUpdater newProduct now)
  (c2, ⟨previousProducts, now⟩, [.cancelQ, .snapshot, .specWrite])

/-- The demo's `onError` (ProductList.tsx lines 167-180): rollback to the
snapshot when it is present, otherwise nothing. -/
def onError (ctx : MutationContext) (c : QueryCache) :
    QueryCache × List Ev :=
  match ctx.previousProducts with
  | some p => (setQueryDataVal c p, [.rollbackWrite])
  | none => (c, [])

/-- The demo's `onSettled` (ProductList.tsx lines 200-218): always
invalidate the `['products']` query. -/
def onSettled (c : QueryCache) : QueryCache × List Ev :=
  (invalidateQueries c, [.invalidate])

/-- The demo's mutation lifecycle, per TanStack Query callback ordering.
In `error` mode no fetch is issued, so no `.remoteCall` event is emitted
in that mode. -/
def mutate (mode : DemoMode) (outcome : FetchOutcome) (now : Nat)
    (newProduct : NewProduct) (c : QueryCache) :
    QueryCache × MutationResult × List Ev :=
  let (c1, ctx, ev1) := onMutate newProduct now c
  let evCall : List Ev := match mode with
    | .normal | .slow => [.remoteCall]
    | .error => []
  match mutationFn mode outcome with
  | .success r =>
      let (c2, ev3) := onSettled c1
      (c2, .success r, ev1 ++ evCall ++ ev3)
  | .failure m =>
      let (c2, ev2) := onError ctx c1
      let (c3, ev3) := onSettled c2
      (c3, .failure m, ev1 ++ evCall ++ ev2 ++ ev3)

/-- The demo's `handleSubmit` (ProductList.tsx lines 221-233): same
validation as `AddProductOptimistic.handleSubmit` (silent return instead
of an alert). -/
def handleSubmit (parse : String → Option JSNum)
    (title price : String) : Option NewProduct :=
  if jsTrim title = "" ∨ jsTrim price = "" then none
  else
    match parse price with
    | none => none
    | some priceNumber =>
        if priceNumber ≤ 0 then none
        else some ⟨jsTrim title, priceNumber⟩

/-- A full submit invocation of the demo component in the selected demo
mode: validation, then (if it passes) the mutation lifecycle. The second
component is `none` when validation rejected. -/
def submit (parse : String → Option JSNum) (mode : DemoMode)
    (outcome : FetchOutcome) (now : Nat) (title price : String)
    (c : QueryCache) : QueryCache × Option MutationResult × List Ev :=
  match handleSubmit parse title price with
  | none => (c, none, [])
  | some np =>
      let (c', r, evs) := mutate mode outcome now np c
      (c', some r, evs)

/-- The demo's cache state immediately upon return from phase 2 (the
optimistic update), before the remote call resolves. -/
def stateAfterPhase2 (newProduct : NewProduct) (now : Nat)
    (c : QueryCache) : QueryCache :=
  (onMutate newProduct now c).1

end OptimisticUpdateDemo

/-- A sample product, standing for an item already in the cache. -/
def sampleProduct : ProductResponse :=
  { id := 1, title := "Phone", price := 499, thumbnail := some "thumb.jpg",
    description := none, images := none }

/-- A sample populated cache entry (`{items: [Phone], total: 1}`-style). -/
def sampleData : ProductsQueryData :=
  { products := [sampleProduct], total := 1, skip := 0, limit := 30 }

/-- A sample cache with a populated `['products']` entry and a refetch in
flight. -/
def sampleCache : QueryCache :=
  { productsData := some sampleData, pendingFetch := true, stale := false,
    refetchScheduled := false }

/-- A cache whose `['products']` entry was never populated. -/
def emptyCache : QueryCache :=
  { productsData := none, pendingFetch := false, stale := false,
    refetchScheduled := false }

/-- The event trace of a full `AddProductOptimistic` submit invocation. -/
def submitTraceOf (parse : String → Option JSNum) (outcome : FetchOutcome)
    (now : Nat) (title price : String) (c : QueryCache) : List Ev :=
  (AddProductOptimistic.submit parse outcome now title price c).2.2

/-- The event trace of a full `OptimisticUpdateDemo` submit invocation. -/
def demoSubmitTraceOf (parse : String → Option JSNum)
    (mode : OptimisticUpdateDemo.DemoMode) (outcome : FetchOutcome)
    (now : Nat) (title price : String) (c : QueryCache) : List Ev :=
  (OptimisticUpdateDemo.submit parse mode outcome now title price c).2.2

namespace AddProductOptimistic

/-- Helper: the snapshot captured by `onMutate` is exactly the cache entry
as it was when `submit` began (`cancelQueries` does not touch the data). -/
theorem onMutate_snapshot (np : NewProduct) (now : Nat) (c : QueryCache) :
    (onMutate np now c).2.1.previousProducts = c.productsData := by
  simp [onMutate, getQueryData, cancelQueries]

/-- Helper: the cache data after `onMutate` is the updater applied to the
original entry when the updater produces a value, and the original entry
otherwise. -/
theorem onMutate_productsData (np : NewProduct) (now : Nat) (c : QueryCache) :
    (onMutate np now c).1.productsData
      = match onMutateUpdater np now c.productsData with
        | none => c.productsData
        | some v => some v := by
  cases hc : c.productsData <;>
    simp [onMutate, setQueryDataFn, cancelQueries, getQueryData,
      onMutateUpdater, hc]

/-- Helper: when the remote call fails, the full lifecycle reports the
failure and leaves the cache entry equal to the pre-mutation entry. -/
theorem mutate_failure (outcome : FetchOutcome) (now : Nat)
    (np : NewProduct) (c : QueryCache) (m : String)
    (hfail : mutationFn outcome = .failure m) :
    (mutate outcome now np c).1.productsData = c.productsData ∧
    (mutate outcome now np c).2.1 = .failure m := by
  cases hc : c.productsData <;>
    simp [mutate, onMutate, onError, onSettled, cancelQueries, getQueryData,
      setQueryDataFn, setQueryDataVal, invalidateQueries, onMutateUpdater,
      hfail, hc]

end AddProductOptimistic

/-- Helper: the two components' `handleSubmit` validation routines are
character-for-character the same logic, so they agree as functions. -/
theorem handleSubmit_agree :
    OptimisticUpdateDemo.handleSubmit = AddProductOptimistic.handleSubmit :=
  rfl

/-- **C1.** For every submit invocation in which the remote create call
fails, after the `onError` rollback runs the cache entry for the
`['products']` key is equal to the snapshot captured before phase 2's
speculative write: the entry is restored wholesale and no residual
speculative item remains. Stated for the full `AddProductOptimistic`
lifecycle (whose `onSettled` does not touch the entry data, so the final
entry is the post-rollback entry) and for the `OptimisticUpdateDemo`
`onMutate`/`onError` pair. -/
theorem rollback_restores_snapshot (outcome : FetchOutcome) (now : Nat)
    (np : NewProduct) (c : QueryCache) (m : String)
    (hfail : AddProductOptimistic.mutationFn outcome = .failure m) :
    (AddProductOptimistic.mutate outcome now np c).1.productsData
        = c.productsData ∧
    (OptimisticUpdateDemo.onError
        (OptimisticUpdateDemo.onMutate np now c).2.1
        (OptimisticUpdateDemo.onMutate np now c).1).1.productsData
      = c.productsData := by
  refine ⟨(AddProductOptimistic.mutate_failure outcome now np c m hfail).1, ?_⟩
  cases hc : c.productsData <;>
    simp [OptimisticUpdateDemo.onMutate, OptimisticUpdateDemo.onError,
      OptimisticUpdateDemo.onMutateUpdater, cancelQueries, getQueryData,
      setQueryDataFn, setQueryDataVal, hc]

/-- Witness for C1 at a concrete failing fetch and populated cache. -/
theorem rollback_restores_snapshot_witness :
    AddProductOptimistic.mutationFn (.rejected "boom") = .failure "boom" ∧
    ((AddProductOptimistic.mutate (.rejected "boom") 5 ⟨"Pen", 3/2⟩
        sampleCache).1.productsData = sampleCache.productsData ∧
      (OptimisticUpdateDemo.onError
          (OptimisticUpdateDemo.onMutate ⟨"Pen", 3/2⟩ 5 sampleCache).2.1
          (OptimisticUpdateDemo.onMutate ⟨"Pen", 3/2⟩ 5 sampleCache).1).1.productsData
        = sampleCache.productsData) :=
  ⟨rfl, rollback_restores_snapshot (.rejected "boom") 5 ⟨"Pen", 3/2⟩
    sampleCache "boom" rfl⟩

/-- **C2.** For every `NewProduct` input (in particular every valid one),
when the cache entry is present, immediately upon return from phase 2 the
entry holds the synthesized placeholder product prepended to the previous
item sequence with `total` incremented by one; hence the item count is
`old_count + 1` before the remote call resolves. Stated for both
components. -/
theorem optimistic_write_prepends (np : NewProduct) (now : Nat)
    (c : QueryCache) (d : ProductsQueryData)
    (hd : c.productsData = some d) :
    ((AddProductOptimistic.stateAfterPhase2 np now c).productsData
        = some { d with
            products := AddProductOptimistic.optimisticProduct np now
              :: d.products
            total := d.total + 1 } ∧
      (AddProductOptimistic.optimisticProduct np now :: d.products).length
        = d.products.length + 1) ∧
    ((OptimisticUpdateDemo.stateAfterPhase2 np now c).productsData
        = some { d with
            products := OptimisticUpdateDemo.optimisticProduct np now
              :: d.products
            total := d.total + 1 } ∧
      (OptimisticUpdateDemo.optimisticProduct np now :: d.products).length
        = d.products.length + 1) := by
  refine ⟨⟨?_, rfl⟩, ⟨?_, rfl⟩⟩
  · simp [AddProductOptimistic.stateAfterPhase2,
      AddProductOptimistic.onMutate, AddProductOptimistic.onMutateUpdater,
      cancelQueries, getQueryData, setQueryDataFn, hd]
  · simp [OptimisticUpdateDemo.stateAfterPhase2,
      OptimisticUpdateDemo.onMutate, OptimisticUpdateDemo.onMutateUpdater,
      cancelQueries, getQueryData, setQueryDataFn, hd]

/-- Witness for C2 at a concrete populated cache. -/
theorem optimistic_write_prepends_witness :
    sampleCache.productsData = some sampleData ∧
    (((AddProductOptimistic.stateAfterPhase2 ⟨"Pen", 2⟩ 7
          sampleCache).productsData
        = some { sampleData with
            products := AddProductOptimistic.optimisticProduct ⟨"Pen", 2⟩ 7
              :: sampleData.products
            total := sampleData.total + 1 } ∧
      (AddProductOptimistic.optimisticProduct ⟨"Pen", 2⟩ 7
          :: sampleData.products).length
        = sampleData.products.length + 1) ∧
    ((OptimisticUpdateDemo.stateAfterPhase2 ⟨"Pen", 2⟩ 7
          sampleCache).productsData
        = some { sampleData with
            products := OptimisticUpdateDemo.optimisticProduct ⟨"Pen", 2⟩ 7
              :: sampleData.products
            total := sampleData.total + 1 } ∧
      (OptimisticUpdateDemo.optimisticProduct ⟨"Pen", 2⟩ 7
          :: sampleData.products).length
        = sampleData.products.length + 1)) :=
  ⟨rfl, optimistic_write_prepends ⟨"Pen", 2⟩ 7 sampleCache sampleData rfl⟩

/-- **C8.** Rollback is idempotent, in both components: for every mutation
context and cache state, applying the `onError` rollback twice with the
same snapshot leaves the cache in the same state as applying it once. -/
theorem rollback_idempotent (ctx : AddProductOptimistic.MutationContext)
    (ctxD : OptimisticUpdateDemo.MutationContext) (c cD : QueryCache) :
    (AddProductOptimistic.onError ctx
        (AddProductOptimistic.onError ctx c).1).1
      = (AddProductOptimistic.onError ctx c).1 ∧
    (OptimisticUpdateDemo.onError ctxD
        (OptimisticUpdateDemo.onError ctxD cD).1).1
      = (OptimisticUpdateDemo.onError ctxD cD).1 := by
  constructor
  · cases hp : ctx.previousProducts <;>
      simp [AddProductOptimistic.onError, setQueryDataVal, hp]
  · cases hp : ctxD.previousProducts <;>
      simp [OptimisticUpdateDemo.onError, setQueryDataVal, hp]

/-- **C9.** The phase-2 speculative write changes only the `products`
sequence and the `total` field of a present cache entry: `skip` and
`limit` are unchanged. Stated for both components' updaters. -/
theorem optimistic_write_frame (np : NewProduct) (now : Nat)
    (c : QueryCache) (d : ProductsQueryData)
    (hd : c.productsData = some d) :
    (∃ d', (AddProductOptimistic.stateAfterPhase2 np now c).productsData
        = some d' ∧ d'.skip = d.skip ∧ d'.limit = d.limit) ∧
    (∃ dD, (OptimisticUpdateDemo.stateAfterPhase2 np now c).productsData
        = some dD ∧ dD.skip = d.skip ∧ dD.limit = d.limit) := by
  constructor
  · refine ⟨{ d with
      products := AddProductOptimistic.optimisticProduct np now
        :: d.products
      total := d.total + 1 }, ?_, rfl, rfl⟩
    simp [AddProductOptimistic.stateAfterPhase2,
      AddProductOptimistic.onMutate, AddProductOptimistic.onMutateUpdater,
      cancelQueries, getQueryData, setQueryDataFn, hd]
  · refine ⟨{ d with
      products := OptimisticUpdateDemo.optimisticProduct np now
        :: d.products
      total := d.total + 1 }, ?_, rfl, rfl⟩
    simp [OptimisticUpdateDemo.stateAfterPhase2,
      OptimisticUpdateDemo.onMutate, OptimisticUpdateDemo.onMutateUpdater,
      cancelQueries, getQueryData, setQueryDataFn, hd]

/-- Witness for C9 at a concrete populated cache. -/
theorem optimistic_write_frame_witness :
    sampleCache.productsData = some sampleData ∧
    ((∃ d', (AddProductOptimistic.stateAfterPhase2 ⟨"Pen", 2⟩ 7
          sampleCache).productsData
        = some d' ∧ d'.skip = sampleData.skip ∧
          d'.limit = sampleData.limit) ∧
    (∃ dD, (OptimisticUpdateDemo.stateAfterPhase2 ⟨"Pen", 2⟩ 7
          sampleCache).productsData
        = some dD ∧ dD.skip = sampleData.skip ∧
          dD.limit = sampleData.limit)) :=
  ⟨rfl, optimistic_write_frame ⟨"Pen", 2⟩ 7 sampleCache sampleData rfl⟩

/-- **C10.** If the `['products']` entry is absent when a valid submit
begins, the whole invocation leaves it absent: the optimistic updater
returns the absent marker (no entry is created), the snapshot in the
context is absent, and on remote failure the rollback branch performs no
cache write (`.rollbackWrite` never occurs in the trace). Stated for
both components, the demo in every mode. -/
theorem absent_entry_stays_absent (mode : OptimisticUpdateDemo.DemoMode)
    (outcome : FetchOutcome) (now : Nat) (np : NewProduct)
    (c : QueryCache) (hc : c.productsData = none) :
    ((AddProductOptimistic.stateAfterPhase2 np now c).productsData
        = none ∧
      (AddProductOptimistic.onMutate np now c).2.1.previousProducts
        = none ∧
      (AddProductOptimistic.mutate outcome now np c).1.productsData
        = none ∧
      Ev.rollbackWrite
        ∉ (AddProductOptimistic.mutate outcome now np c).2.2) ∧
    ((OptimisticUpdateDemo.stateAfterPhase2 np now c).productsData
        = none ∧
      (OptimisticUpdateDemo.onMutate np now c).2.1.previousProducts
        = none ∧
      (OptimisticUpdateDemo.mutate mode outcome now np c).1.productsData
        = none ∧
      Ev.rollbackWrite
        ∉ (OptimisticUpdateDemo.mutate mode outcome now np c).2.2) := by
  refine ⟨⟨?_, ?_, ?_, ?_⟩, ⟨?_, ?_, ?_, ?_⟩⟩ <;>
  · cases outcome with
    | resolved ok body =>
        cases ok <;> cases mode <;>
          simp [AddProductOptimistic.stateAfterPhase2,
            AddProductOptimistic.mutate, AddProductOptimistic.onMutate,
            AddProductOptimistic.onError, AddProductOptimistic.onSettled,
            AddProductOptimistic.mutationFn,
            AddProductOptimistic.onMutateUpdater,
            OptimisticUpdateDemo.stateAfterPhase2,
            OptimisticUpdateDemo.mutate, OptimisticUpdateDemo.onMutate,
            OptimisticUpdateDemo.onError, OptimisticUpdateDemo.onSettled,
            OptimisticUpdateDemo.mutationFn,
            OptimisticUpdateDemo.onMutateUpdater, cancelQueries,
            getQueryData, setQueryDataFn, setQueryDataVal,
            invalidateQueries, hc]
    | rejected m =>
        cases mode <;>
          simp [AddProductOptimistic.stateAfterPhase2,
            AddProductOptimistic.mutate, AddProductOptimistic.onMutate,
            AddProductOptimistic.onError, AddProductOptimistic.onSettled,
            AddProductOptimistic.mutationFn,
            AddProductOptimistic.onMutateUpdater,
            OptimisticUpdateDemo.stateAfterPhase2,
            OptimisticUpdateDemo.mutate, OptimisticUpdateDemo.onMutate,
            OptimisticUpdateDemo.onError, OptimisticUpdateDemo.onSettled,
            OptimisticUpdateDemo.mutationFn,
            OptimisticUpdateDemo.onMutateUpdater, cancelQueries,
            getQueryData, setQueryDataFn, setQueryDataVal,
            invalidateQueries, hc]

/-- **C3 counterexample.** The claim fails on `OptimisticUpdateDemo`: its
`mutationFn` (normal mode) returns `response.json()` without checking
`response.ok`, so a create call that completes with a non-success HTTP
status is treated as a success — the invocation is reported as a success
and no rollback runs. -/
theorem demo_nonok_reported_success :
    OptimisticUpdateDemo.mutationFn .normal (.resolved false sampleProduct)
      = .success sampleProduct ∧
    (OptimisticUpdateDemo.mutate .normal (.resolved false sampleProduct) 7
        ⟨"Pen", 2⟩ sampleCache).2.1 = .success sampleProduct ∧
    Ev.rollbackWrite ∉ (OptimisticUpdateDemo.mutate .normal
        (.resolved false sampleProduct) 7 ⟨"Pen", 2⟩ sampleCache).2.2 := by
  refine ⟨rfl, rfl, ?_⟩
  simp [OptimisticUpdateDemo.mutate, OptimisticUpdateDemo.onMutate,
    OptimisticUpdateDemo.onError, OptimisticUpdateDemo.onSettled,
    OptimisticUpdateDemo.mutationFn, OptimisticUpdateDemo.onMutateUpdater,
    cancelQueries, getQueryData, setQueryDataFn, setQueryDataVal,
    invalidateQueries, sampleCache]

/-- **C3 (amended).** A rejected/thrown create call is a `RemoteFailure`
in both components: it triggers the full snapshot rollback and is
reported as the terminal error. A completed call with a non-success HTTP
status is a `RemoteFailure` only in `AddProductOptimistic` (whose
`mutationFn` throws `'Failed to add product'` when `response.ok` is
false); `OptimisticUpdateDemo`'s `mutationFn` performs no status check
and treats any resolved response as a success. -/
theorem remote_failure_semantics (now : Nat) (np : NewProduct)
    (c : QueryCache) (m : String) (ok : Bool) (body : ProductResponse) :
    AddProductOptimistic.mutationFn (.rejected m) = .failure m ∧
    AddProductOptimistic.mutationFn (.resolved false body)
      = .failure "Failed to add product" ∧
    (AddProductOptimistic.mutate (.rejected m) now np c).2.1
      = .failure m ∧
    (AddProductOptimistic.mutate (.rejected m) now np c).1.productsData
      = c.productsData ∧
    (AddProductOptimistic.mutate (.resolved false body) now np c).2.1
      = .failure "Failed to add product" ∧
    (AddProductOptimistic.mutate (.resolved false body) now np
        c).1.productsData = c.productsData ∧
    OptimisticUpdateDemo.mutationFn .normal (.rejected m) = .failure m ∧
    OptimisticUpdateDemo.mutationFn .slow (.rejected m) = .failure m ∧
    OptimisticUpdateDemo.mutationFn .normal (.resolved ok body)
      = .success body := by
  refine ⟨rfl, rfl,
    (AddProductOptimistic.mutate_failure (.rejected m) now np c m rfl).2,
    (AddProductOptimistic.mutate_failure (.rejected m) now np c m rfl).1,
    (AddProductOptimistic.mutate_failure (.resolved false body) now np c
      "Failed to add product" rfl).2,
    (AddProductOptimistic.mutate_failure (.resolved false body) now np c
      "Failed to add product" rfl).1,
    rfl, rfl, rfl⟩

/-- **C4.** For every submit invocation that passes validation (and hence
reaches phase 3), phase 4 runs exactly once regardless of the remote
outcome: the trace contains exactly one `invalidateQueries` event, and
the final cache has the `['products']` entry marked stale with a
background refetch triggered, in both the success and failure outcome.
Stated for both components, the demo in every mode. -/
theorem settle_runs_once (parse : String → Option JSNum)
    (mode : OptimisticUpdateDemo.DemoMode) (outcome : FetchOutcome)
    (now : Nat) (title price : String) (c : QueryCache) (np : NewProduct)
    (h : AddProductOptimistic.handleSubmit parse title price = some np) :
    ((AddProductOptimistic.submit parse outcome now title price c).2.2.count
        Ev.invalidate = 1 ∧
      (AddProductOptimistic.submit parse outcome now title price
          c).1.stale = true ∧
      (AddProductOptimistic.submit parse outcome now title price
          c).1.refetchScheduled = true) ∧
    ((OptimisticUpdateDemo.submit parse mode outcome now title price
          c).2.2.count Ev.invalidate = 1 ∧
      (OptimisticUpdateDemo.submit parse mode outcome now title price
          c).1.stale = true ∧
      (OptimisticUpdateDemo.submit parse mode outcome now title price
          c).1.refetchScheduled = true) := by
  have hD : OptimisticUpdateDemo.handleSubmit parse title price = some np := by
    rw [handleSubmit_agree]
    exact h
  refine ⟨?_, ?_⟩
  · cases outcome with
    | resolved ok body =>
        cases ok <;> cases hc : c.productsData <;>
          simp [AddProductOptimistic.submit, h, AddProductOptimistic.mutate,
            AddProductOptimistic.onMutate, AddProductOptimistic.onError,
            AddProductOptimistic.onSettled, AddProductOptimistic.mutationFn,
            AddProductOptimistic.onMutateUpdater, cancelQueries,
            getQueryData, setQueryDataFn, setQueryDataVal,
            invalidateQueries, hc, List.count_cons, List.count_nil] <;>
          decide
    | rejected m =>
        cases hc : c.productsData <;>
          simp [AddProductOptimistic.submit, h, AddProductOptimistic.mutate,
            AddProductOptimistic.onMutate, AddProductOptimistic.onError,
            AddProductOptimistic.onSettled, AddProductOptimistic.mutationFn,
            AddProductOptimistic.onMutateUpdater, cancelQueries,
            getQueryData, setQueryDataFn, setQueryDataVal,
            invalidateQueries, hc, List.count_cons, List.count_nil] <;>
          decide
  · cases mode <;> cases outcome <;> cases hc : c.productsData <;>
      simp [OptimisticUpdateDemo.submit, hD, OptimisticUpdateDemo.mutate,
        OptimisticUpdateDemo.onMutate, OptimisticUpdateDemo.onError,
        OptimisticUpdateDemo.onSettled, OptimisticUpdateDemo.mutationFn,
        OptimisticUpdateDemo.onMutateUpdater, cancelQueries, getQueryData,
        setQueryDataFn, setQueryDataVal, invalidateQueries, hc,
        List.count_cons, List.count_nil] <;> decide

/-- Witness for C4 at a concrete valid submission with a failing fetch. -/
theorem settle_runs_once_witness :
    AddProductOptimistic.handleSubmit (fun _ => some 2) "Pen" "2"
      = some ⟨"Pen", 2⟩ ∧
    (((AddProductOptimistic.submit (fun _ => some 2) (.rejected "boom") 7
          "Pen" "2" sampleCache).2.2.count Ev.invalidate = 1 ∧
      (AddProductOptimistic.submit (fun _ => some 2) (.rejected "boom") 7
          "Pen" "2" sampleCache).1.stale = true ∧
      (AddProductOptimistic.submit (fun _ => some 2) (.rejected "boom") 7
          "Pen" "2" sampleCache).1.refetchScheduled = true) ∧
    ((OptimisticUpdateDemo.submit (fun _ => some 2) .error
          (.rejected "boom") 7 "Pen" "2" sampleCache).2.2.count
            Ev.invalidate = 1 ∧
      (OptimisticUpdateDemo.submit (fun _ => some 2) .error
          (.rejected "boom") 7 "Pen" "2" sampleCache).1.stale = true ∧
      (OptimisticUpdateDemo.submit (fun _ => some 2) .error
          (.rejected "boom") 7 "Pen" "2"
          sampleCache).1.refetchScheduled = true)) :=
  ⟨by decide, settle_runs_once (fun _ => some 2) .error (.rejected "boom")
    7 "Pen" "2" sampleCache ⟨"Pen", 2⟩ (by decide)⟩

/-- **C5.** For every input whose title trims to the empty string, or
whose price fails to parse (`parseFloat` yields `NaN`, modelled `none`),
or parses to a value `≤ 0`, `submit` rejects in phase 1 with no state
change: the cache is returned untouched, no mutation result is produced,
and no event (in particular no remote call) occurs. -/
theorem invalid_input_no_effect (parse : String → Option JSNum)
    (mode : OptimisticUpdateDemo.DemoMode) (outcome : FetchOutcome)
    (now : Nat) (title price : String) (c : QueryCache)
    (h : jsTrim title = "" ∨ parse price = none ∨
      ∃ q, parse price = some q ∧ q ≤ 0) :
    (AddProductOptimistic.submit parse outcome now title price c
        = (c, none, []) ∧
      Ev.remoteCall ∉
        (AddProductOptimistic.submit parse outcome now title price
          c).2.2) ∧
    (OptimisticUpdateDemo.submit parse mode outcome now title price c
        = (c, none, []) ∧
      Ev.remoteCall ∉
        (OptimisticUpdateDemo.submit parse mode outcome now title price
          c).2.2) := by
  have hs : AddProductOptimistic.handleSubmit parse title price = none := by
    unfold AddProductOptimistic.handleSubmit
    rcases h with h | h | ⟨q, hq, hle⟩
    · simp [h]
    · split
      · rfl
      · rw [h]
    · split
      · rfl
      · rw [hq]
        simp [hle]
  have hsD : OptimisticUpdateDemo.handleSubmit parse title price = none := by
    rw [handleSubmit_agree]
    exact hs
  refine ⟨⟨?_, ?_⟩, ⟨?_, ?_⟩⟩ <;>
    simp [AddProductOptimistic.submit, OptimisticUpdateDemo.submit, hs, hsD]

/-- Witness for C5 at a concrete input whose price fails to parse. -/
theorem invalid_input_no_effect_witness :
    (jsTrim "Pen" = "" ∨ (fun _ : String => (none : Option JSNum)) "x" = none ∨
      ∃ q, (fun _ : String => (none : Option JSNum)) "x" = some q ∧
        q ≤ 0) ∧
    ((AddProductOptimistic.submit (fun _ => none) (.rejected "boom") 7
        "Pen" "x" sampleCache = (sampleCache, none, []) ∧
      Ev.remoteCall ∉ (AddProductOptimistic.submit (fun _ => none)
          (.rejected "boom") 7 "Pen" "x" sampleCache).2.2) ∧
    (OptimisticUpdateDemo.submit (fun _ => none) .normal (.rejected "boom")
        7 "Pen" "x" sampleCache = (sampleCache, none, []) ∧
      Ev.remoteCall ∉ (OptimisticUpdateDemo.submit (fun _ => none) .normal
          (.rejected "boom") 7 "Pen" "x" sampleCache).2.2)) :=
  ⟨Or.inr (Or.inl rfl),
    invalid_input_no_effect (fun _ => none) .normal (.rejected "boom") 7
      "Pen" "x" sampleCache (Or.inr (Or.inl rfl))⟩

/-- **C6 counterexample.** The temporary id is the `Date.now()` reading,
so two distinct submit invocations that observe the same millisecond
timestamp receive the same temporary id: two sequential optimistic
writes at timestamp 1000 leave the cache's first two items both with id
1000 — the claim's "guaranteed distinct" fails. -/
theorem temp_id_collision :
    (⟨"A", 1⟩ : NewProduct) ≠ (⟨"B", 2⟩ : NewProduct) ∧
    (AddProductOptimistic.optimisticProduct ⟨"A", 1⟩ 1000).id
      = (AddProductOptimistic.optimisticProduct ⟨"B", 2⟩ 1000).id ∧
    Option.map (fun d => d.products.map ProductResponse.id)
        (AddProductOptimistic.stateAfterPhase2 ⟨"B", 2⟩ 1000
          (AddProductOptimistic.stateAfterPhase2 ⟨"A", 1⟩ 1000
            sampleCache)).productsData
      = some [1000, 1000, 1] :=
  ⟨by decide, rfl, rfl⟩

/-- **C6 (amended).** The temporary id of an optimistic placeholder
equals the invocation's `Date.now()` reading, so temporary ids of two
invocations are distinct if and only if their timestamp readings differ:
within a session with strictly increasing clock readings they are all
distinct, but two invocations in the same millisecond collide. Stated
for both components. -/
theorem temp_ids_distinct_of_distinct_timestamps (np1 np2 : NewProduct)
    (n1 n2 : Nat) (h : n1 ≠ n2) :
    (AddProductOptimistic.optimisticProduct np1 n1).id
      ≠ (AddProductOptimistic.optimisticProduct np2 n2).id ∧
    (OptimisticUpdateDemo.optimisticProduct np1 n1).id
      ≠ (OptimisticUpdateDemo.optimisticProduct np2 n2).id :=
  ⟨h, h⟩

/-- Witness for the amended C6 at concrete distinct timestamps. -/
theorem temp_ids_distinct_witness :
    (1 : Nat) ≠ 2 ∧
    ((AddProductOptimistic.optimisticProduct ⟨"Pen", 2⟩ 1).id
      ≠ (AddProductOptimistic.optimisticProduct ⟨"Pen", 2⟩ 2).id ∧
    (OptimisticUpdateDemo.optimisticProduct ⟨"Pen", 2⟩ 1).id
      ≠ (OptimisticUpdateDemo.optimisticProduct ⟨"Pen", 2⟩ 2).id) :=
  ⟨by decide,
    temp_ids_distinct_of_distinct_timestamps ⟨"Pen", 2⟩ ⟨"Pen", 2⟩ 1 2
      (by decide)⟩

/-- **C7.** For every submit invocation that passes validation, the
phase-2 steps are strictly ordered in the execution trace: the awaited
cancellation of in-flight refetches precedes the speculative cache
write, and the speculative write precedes the issuing of the phase-3
remote create call; each of the three occurs exactly once. Stated for
both components; in the demo's `error` mode the `mutationFn` throws
before any fetch, so no remote call is issued at all there (the
ordering constraint is vacuous), while in its `normal` and `slow` modes
the full ordering holds. -/
theorem phase2_ordering (parse : String → Option JSNum)
    (mode : OptimisticUpdateDemo.DemoMode) (outcome : FetchOutcome)
    (now : Nat) (title price : String) (c : QueryCache) (np : NewProduct)
    (h : AddProductOptimistic.handleSubmit parse title price = some np) :
    ((submitTraceOf parse outcome now title price c).indexOf Ev.cancelQ
      < (submitTraceOf parse outcome now title price c).indexOf
          Ev.specWrite ∧
    (submitTraceOf parse outcome now title price c).indexOf Ev.specWrite
      < (submitTraceOf parse outcome now title price c).indexOf
          Ev.remoteCall ∧
    (submitTraceOf parse outcome now title price c).count Ev.cancelQ = 1 ∧
    (submitTraceOf parse outcome now title price c).count Ev.specWrite
      = 1 ∧
    (submitTraceOf parse outcome now title price c).count Ev.remoteCall
      = 1) ∧
    ((demoSubmitTraceOf parse mode outcome now title price c).indexOf
        Ev.cancelQ
      < (demoSubmitTraceOf parse mode outcome now title price c).indexOf
          Ev.specWrite ∧
    (demoSubmitTraceOf parse mode outcome now title price c).count
        Ev.cancelQ = 1 ∧
    (demoSubmitTraceOf parse mode outcome now title price c).count
        Ev.specWrite = 1 ∧
    (mode ≠ OptimisticUpdateDemo.DemoMode.error →
      (demoSubmitTraceOf parse mode outcome now title price c).indexOf
          Ev.specWrite
        < (demoSubmitTraceOf parse mode outcome now title price
            c).indexOf Ev.remoteCall ∧
      (demoSubmitTraceOf parse mode outcome now title price c).count
          Ev.remoteCall = 1) ∧
    (mode = OptimisticUpdateDemo.DemoMode.error →
      Ev.remoteCall ∉
        demoSubmitTraceOf parse mode outcome now title price c)) := by
  have hD : OptimisticUpdateDemo.handleSubmit parse title price
      = some np := by
    rw [handleSubmit_agree]
    exact h
  have hT : submitTraceOf parse outcome now title price c
      = (AddProductOptimistic.mutate outcome now np c).2.2 := by
    simp [submitTraceOf, AddProductOptimistic.submit, h]
  have hTD : demoSubmitTraceOf parse mode outcome now title price c
      = (OptimisticUpdateDemo.mutate mode outcome now np c).2.2 := by
    simp [demoSubmitTraceOf, OptimisticUpdateDemo.submit, hD]
  rw [hT, hTD]
  cases outcome with
  | resolved ok body =>
      cases ok <;> cases mode <;> cases hc : c.productsData <;>
        (simp [AddProductOptimistic.mutate, AddProductOptimistic.onMutate,
          AddProductOptimistic.onError, AddProductOptimistic.onSettled,
          AddProductOptimistic.mutationFn,
          AddProductOptimistic.onMutateUpdater,
          OptimisticUpdateDemo.mutate, OptimisticUpdateDemo.onMutate,
          OptimisticUpdateDemo.onError, OptimisticUpdateDemo.onSettled,
          OptimisticUpdateDemo.mutationFn,
          OptimisticUpdateDemo.onMutateUpdater, cancelQueries,
          getQueryData, setQueryDataFn, setQueryDataVal,
          invalidateQueries, hc] <;> decide)
  | rejected m =>
      cases mode <;> cases hc : c.productsData <;>
        (simp [AddProductOptimistic.mutate, AddProductOptimistic.onMutate,
          AddProductOptimistic.onError, AddProductOptimistic.onSettled,
          AddProductOptimistic.mutationFn,
          AddProductOptimistic.onMutateUpdater,
          OptimisticUpdateDemo.mutate, OptimisticUpdateDemo.onMutate,
          OptimisticUpdateDemo.onError, OptimisticUpdateDemo.onSettled,
          OptimisticUpdateDemo.mutationFn,
          OptimisticUpdateDemo.onMutateUpdater, cancelQueries,
          getQueryData, setQueryDataFn, setQueryDataVal,
          invalidateQueries, hc] <;> decide)

/-- Witness for C7 at a concrete valid submission, demo in normal mode. -/
theorem phase2_ordering_witness :
    AddProductOptimistic.handleSubmit (fun _ => some 2) "Pen" "2"
      = some ⟨"Pen", 2⟩ ∧
    (((submitTraceOf (fun _ => some 2) (.rejected "boom") 7 "Pen" "2"
          sampleCache).indexOf Ev.cancelQ
        < (submitTraceOf (fun _ => some 2) (.rejected "boom") 7 "Pen" "2"
            sampleCache).indexOf Ev.specWrite ∧
      (submitTraceOf (fun _ => some 2) (.rejected "boom") 7 "Pen" "2"
          sampleCache).indexOf Ev.specWrite
        < (submitTraceOf (fun _ => some 2) (.rejected "boom") 7 "Pen" "2"
            sampleCache).indexOf Ev.remoteCall ∧
      (submitTraceOf (fun _ => some 2) (.rejected "boom") 7 "Pen" "2"
          sampleCache).count Ev.cancelQ = 1 ∧
      (submitTraceOf (fun _ => some 2) (.rejected "boom") 7 "Pen" "2"
          sampleCache).count Ev.specWrite = 1 ∧
      (submitTraceOf (fun _ => some 2) (.rejected "boom") 7 "Pen" "2"
          sampleCache).count Ev.remoteCall = 1) ∧
    ((demoSubmitTraceOf (fun _ => some 2) .normal (.rejected "boom") 7
          "Pen" "2" sampleCache).indexOf Ev.cancelQ
        < (demoSubmitTraceOf (fun _ => some 2) .normal (.rejected "boom")
            7 "Pen" "2" sampleCache).indexOf Ev.specWrite ∧
      (demoSubmitTraceOf (fun _ => some 2) .normal (.rejected "boom") 7
          "Pen" "2" sampleCache).count Ev.cancelQ = 1 ∧
      (demoSubmitTraceOf (fun _ => some 2) .normal (.rejected "boom") 7
          "Pen" "2" sampleCache).count Ev.specWrite = 1 ∧
      (OptimisticUpdateDemo.DemoMode.normal
          ≠ OptimisticUpdateDemo.DemoMode.error →
        (demoSubmitTraceOf (fun _ => some 2) .normal (.rejected "boom") 7
            "Pen" "2" sampleCache).indexOf Ev.specWrite
          < (demoSubmitTraceOf (fun _ => some 2) .normal
              (.rejected "boom") 7 "Pen" "2" sampleCache).indexOf
                Ev.remoteCall ∧
        (demoSubmitTraceOf (fun _ => some 2) .normal (.rejected "boom") 7
            "Pen" "2" sampleCache).count Ev.remoteCall = 1) ∧
      (OptimisticUpdateDemo.DemoMode.normal
          = OptimisticUpdateDemo.DemoMode.error →
        Ev.remoteCall ∉ demoSubmitTraceOf (fun _ => some 2) .normal
          (.rejected "boom") 7 "Pen" "2" sampleCache))) :=
  ⟨by decide, phase2_ordering (fun _ => some 2) .normal (.rejected "boom")
    7 "Pen" "2" sampleCache ⟨"Pen", 2⟩ (by decide)⟩

/-- Witness for C10 at a concrete never-populated cache and failing fetch. -/
theorem absent_entry_stays_absent_witness :
    emptyCache.productsData = none ∧
    (((AddProductOptimistic.stateAfterPhase2 ⟨"Pen", 2⟩ 7
          emptyCache).productsData = none ∧
      (AddProductOptimistic.onMutate ⟨"Pen", 2⟩ 7
          emptyCache).2.1.previousProducts = none ∧
      (AddProductOptimistic.mutate (.rejected "boom") 7 ⟨"Pen", 2⟩
          emptyCache).1.productsData = none ∧
      Ev.rollbackWrite ∉ (AddProductOptimistic.mutate (.rejected "boom") 7
          ⟨"Pen", 2⟩ emptyCache).2.2) ∧
    ((OptimisticUpdateDemo.stateAfterPhase2 ⟨"Pen", 2⟩ 7
          emptyCache).productsData = none ∧
      (OptimisticUpdateDemo.onMutate ⟨"Pen", 2⟩ 7
          emptyCache).2.1.previousProducts = none ∧
      (OptimisticUpdateDemo.mutate .error (.rejected "boom") 7 ⟨"Pen", 2⟩
          emptyCache).1.productsData = none ∧
      Ev.rollbackWrite ∉ (OptimisticUpdateDemo.mutate .error
          (.rejected "boom") 7 ⟨"Pen", 2⟩ emptyCache).2.2)) :=
  ⟨rfl, absent_entry_stays_absent .error (.rejected "boom") 7 ⟨"Pen", 2⟩
    emptyCache rfl⟩

end TanstackOptimistic
